import Mathlib

/-!
Shallow embedding of the Unitree Go2 construction-site control programs:
go2_gait.py (real-robot loop), go2_gait_simulation.py (PathController and
the simulation loop), go2control_system.py (unified controller) and
pyCLI.py (operator CLI).  Numeric values are modelled as rationals; the
float library functions math.sqrt, math.sin and math.radians are modelled
either through the characterizing relation isSqrtOf or through an explicit
PyMath record of oracle functions, with every instantiation of an oracle
accompanied by a statement that it agrees with the mathematical function
at the points where the modelled code applies it.
-/

/-- A base-velocity command: the pair of arguments passed to
set_base_velocity, resetBaseVelocity or send_movement_command. -/
structure Cmd where
  linear : ℚ × ℚ × ℚ
  angular : ℚ × ℚ × ℚ
  deriving DecidableEq

/-- The zero-velocity command, set_base_velocity([0,0,0],[0,0,0]). -/
def zeroVel : Cmd := ⟨(0, 0, 0), (0, 0, 0)⟩

/-- Connection and walking flags of the real-robot program; the
emergency-stop routine reads none of them, which is how the model states
that the burst is available from every state. -/
structure RobotFlags where
  is_connected : Bool
  is_walking : Bool
  deriving DecidableEq

/-- Models Go2RealRobot.emergency_stop, go2_gait.py lines 234 to 239: ten
iterations, each sending set_base_velocity([0,0,0],[0,0,0]) and then
calling time.sleep(0.01).  Each list entry is the command paired with the
nominal time offset in seconds at which it is sent, counted from entry
into the routine; command i is sent after i sleeps of 0.01 s. -/
def emergency_stop (_r : RobotFlags) : List (Cmd × ℚ) :=
  [0, 1 / 100, 2 / 100, 3 / 100, 4 / 100, 5 / 100, 6 / 100, 7 / 100,
   8 / 100, 9 / 100].map (fun tm => (zeroVel, tm))

/-- Total nominal duration of the emergency_stop routine: the sum of its
ten sleep(0.01) calls (each sleep waits at least the requested time). -/
def emergencyStopDuration : ℚ := 10 * (1 / 100)

/-- Exit causes of go2_gait.py main: the control loop is an infinite
while True, so the process leaves it only through KeyboardInterrupt or
through another exception. -/
inductive ExitCause
  | interrupt
  | fault
  deriving DecidableEq

/-- Models the command trace of go2_gait.py main, lines 442 to 459: if
the robot object was never constructed, no velocity command is ever sent;
otherwise the commands of the loop are followed by the handler of the
exit cause (both the KeyboardInterrupt handler and the generic exception
handler call robot.emergency_stop()) and then by the finally block, which
sends one final zero-velocity command. -/
def go2MainTrace (robotUp : Bool) (r : RobotFlags) (loop : List Cmd)
    (c : ExitCause) : List Cmd :=
  if robotUp then
    (loop ++ (match c with
      | .interrupt => (emergency_stop r).map Prod.fst
      | .fault => (emergency_stop r).map Prod.fst)) ++ [zeroVel]
  else []

/-- The two movement modes of pyCLI.py and go2control_system.py. -/
inductive MovementMode
  | forward
  | rightward
  deriving DecidableEq

/-- The operator-facing state of Go2Controller in pyCLI.py. -/
structure PyCLIState where
  speed : ℚ
  mode : MovementMode
  gaze_angle : ℚ
  is_moving : Bool
  deriving DecidableEq

/-- The JSON command record sent by Go2Controller in pyCLI.py. -/
structure PyCommand where
  speed : ℚ
  mode : MovementMode
  gazeAngle : ℚ
  start : Bool
  stop : Bool
  reset : Bool
  deriving DecidableEq

/-- Models Go2Controller.stop_movement, pyCLI.py lines 79 to 91: clears
is_moving and sends a command with speed 0 and the stop flag set. -/
def stop_movement (s : PyCLIState) : PyCLIState × PyCommand :=
  ({ s with is_moving := false },
   ⟨0, s.mode, s.gaze_angle, false, true, false⟩)

/-- Models Go2Controller.update_movement, pyCLI.py lines 128 to 138:
re-sends the current parameters while moving. -/
def update_movement (s : PyCLIState) : PyCommand :=
  ⟨s.speed, s.mode, s.gaze_angle, false, false, false⟩

/-- Models Go2Controller.set_speed, pyCLI.py lines 107 to 112: clamps the
requested speed into [0.1, 2.0]; if the robot is moving, update_movement
publishes the new parameters. -/
def pySetSpeed (s : PyCLIState) (v : ℚ) : PyCLIState × Option PyCommand :=
  let s' := { s with speed := max (1 / 10) (min 2 v) }
  (s', if s.is_moving then some (update_movement s') else none)

/-- Models the shutdown path of pyCLI.py main, lines 302 to 305: whatever
commands the session sent, the finally block sends the stop_movement
command last (cleanup closes the sockets and sends nothing). -/
def pyMainTrace (loop : List PyCommand) (s : PyCLIState) : List PyCommand :=
  loop ++ [(stop_movement s).2]

/-- State of UnifiedGo2Controller in go2control_system.py, together with
the fields of its inner controller that the modelled operations read or
write. -/
structure UState where
  is_moving : Bool
  is_running : Bool
  speed : ℚ
  target_speed : ℚ
  target_gaze : ℚ
  mode : MovementMode
  deriving DecidableEq

/-- The JSON command record built by
UnitySimulationController.send_movement_command. -/
structure UCmd where
  velocity : ℚ × ℚ × ℚ
  yawRate : ℚ
  speed : ℚ
  mode : MovementMode
  gazeAngle : ℚ
  isMoving : Bool
  deriving DecidableEq

/-- Models UnitySimulationController.send_movement_command building its
command record from the given velocity and the current state; the
transport forwards it over UDP when connected. -/
def uSend (s : UState) (vel : ℚ × ℚ × ℚ) (yaw : ℚ) : UCmd :=
  ⟨vel, yaw, s.target_speed, s.mode, s.target_gaze, s.is_moving⟩

/-- Models UnifiedGo2Controller.stop, go2control_system.py lines 428 to
437: clears is_moving and is_running, then publishes a zero-velocity
command built from the updated state. -/
def uStop (s : UState) : UState × UCmd :=
  let s' := { s with is_moving := false, is_running := false }
  (s', uSend s' (0, 0, 0) 0)

/-- Models UnifiedGo2Controller.set_speed, go2control_system.py lines 470
to 474: clamp the requested speed into [0.1, 2.0] and mirror the result
into the inner controller target_speed. -/
def uSetSpeed (s : UState) (v : ℚ) : UState :=
  { s with speed := max (1 / 10) (min 2 v),
           target_speed := max (1 / 10) (min 2 v) }

/-- The six speed modes of PathController, go2_gait_simulation.py lines
115 to 122, in list order: 1-3_gradual, 3-1_gradual, 1-3_abrupt,
3-1_abrupt, 1_stop_1, 3_stop_3. -/
inductive SpeedMode
  | oneThreeGradual
  | threeOneGradual
  | oneThreeAbrupt
  | threeOneAbrupt
  | oneStopOne
  | threeStopThree
  deriving DecidableEq

/-- The PathController state set up in its constructor. -/
structure PathCtrl where
  path_length : ℚ
  mode : SpeedMode
  gaze_enabled : Bool
  was_stopped : Bool
  deriving DecidableEq

/-- Models PathController.get_speed, go2_gait_simulation.py lines 127 to
165, as a function of the controller state and the distance traveled; the
trailing default return 1.0 of the source is unreachable for the six
listed modes. -/
def get_speed (pc : PathCtrl) (d : ℚ) : ℚ :=
  match pc.mode with
  | .oneThreeGradual => 1 + (d / pc.path_length) * 2
  | .threeOneGradual => 3 - (d / pc.path_length) * 2
  | .oneThreeAbrupt => if d < 8 then 1 else 3
  | .threeOneAbrupt => if d < 8 then 3 else 1
  | .oneStopOne => if d < 8 then 1 else if d < 17 / 2 then 0 else 1
  | .threeStopThree => if d < 8 then 3 else if d < 17 / 2 then 0 else 3

/-- The speed-policy table of spec section 4.2, parameterized by the path
length L; second definition, following the words of the spec, for
comparison with get_speed.  Row names of the spec in order: ramp_up,
ramp_down, step_up_at_half, step_down_at_half, pause_slow, pause_fast. -/
def specSpeedTable (L : ℚ) (mode : SpeedMode) (d : ℚ) : ℚ :=
  match mode with
  | .oneThreeGradual => 1 + (d / L) * 2
  | .threeOneGradual => 3 - (d / L) * 2
  | .oneThreeAbrupt => if d < L * 8 / 15 then 1 else 3
  | .threeOneAbrupt => if d < 8 then 3 else 1
  | .oneStopOne => if d < 8 then 1 else if d < 17 / 2 then 0 else 1
  | .threeStopThree => if d < 8 then 3 else if d < 17 / 2 then 0 else 3

/-- Models Python positional-argument binding for the method
PathController.get_speed, whose definition takes exactly one parameter
besides self: a call with any other number of positional arguments raises
TypeError, modelled as none. -/
def applyGetSpeed (pc : PathCtrl) (args : List ℚ) : Option ℚ :=
  match args with
  | [d] => some (get_speed pc d)
  | _ => none

/-- Oracles for the float library functions used by the control code.  A
theorem that instantiates them states separately that the oracle agrees
with the mathematical function at every point where the modelled code
applies it. -/
structure PyMath where
  sqrt : ℚ → ℚ
  sin : ℚ → ℚ
  radians : ℚ → ℚ

/-- Models PathController.get_gaze_angle, go2_gait_simulation.py lines
167 to 172: 0 when gaze is disabled, otherwise 15.0 * sin(0.5 * t). -/
def get_gaze_angle (m : PyMath) (enabled : Bool) (t : ℚ) : ℚ :=
  if enabled then 15 * m.sin ((1 / 2) * t) else 0

/-- Models one Walking-branch pass of the go2_gait_simulation.py main
loop, lines 276 to 332, given the already computed distance traveled d
and the elapsed time t: the base-velocity commands it emits (the
joint-level gait animation sends no base-velocity command), the next
value of is_walking and the updated PathController state.  Both path
modes build the same velocities (lines 302 to 316), so the path mode is
not a parameter.  The was_stopped update of lines 293 to 299 amounts to
storing whether the target speed is exactly zero.  The completion check
of lines 329 to 332 clears is_walking without sending any command. -/
def simWalkBody (m : PyMath) (pc : PathCtrl) (d t : ℚ) :
    List Cmd × Bool × PathCtrl :=
  let speed := get_speed pc d
  let gaze := get_gaze_angle m pc.gaze_enabled t
  let pc' := { pc with was_stopped := decide (speed = 0) }
  let cmd : Cmd := ⟨(0, speed, 0), (0, 0, m.radians gaze * (1 / 10))⟩
  ([cmd], decide (d < pc.path_length), pc')

/-- The non-walking branch of the simulation loop, lines 334 to 337: one
zero-velocity command per tick. -/
def simIdleBody : List Cmd := [zeroVel]

/-- Models the path-completed check of go2_gait.py, lines 430 to 434:
when distance_traveled has reached path_length, one zero-velocity command
is sent and only afterwards is is_walking cleared; otherwise nothing
happens. -/
def go2CompletionStep (d L : ℚ) (walking : Bool) : List Cmd × Bool :=
  if L ≤ d then ([zeroVel], false) else ([], walking)

/-- The radicand of the distance computation of go2_gait.py lines 380 to
385: squared planar displacement, third coordinate excluded, of the
current position from the episode start position. -/
def planarDistSq (cur init : ℚ × ℚ × ℚ) : ℚ :=
  (cur.1 - init.1) ^ 2 + (cur.2.1 - init.2.1) ^ 2

/-- d is the value of math.sqrt on r: the unique nonnegative square
root. -/
def isSqrtOf (r d : ℚ) : Prop := 0 ≤ d ∧ d * d = r

/-- Spec section 4.1 step 3, squared form: planar distance with the
vertical third coordinate excluded, the frame of go2_gait.py; second
definition, following the words of the spec, for comparison with
planarDistSq. -/
def specPlanarDistSqXY (cur start : ℚ × ℚ × ℚ) : ℚ :=
  (cur.1 - start.1) ^ 2 + (cur.2.1 - start.2.1) ^ 2

/-- Spec section 4.1 step 3 in the Unity frame of go2control_system.py,
where the second coordinate is the vertical height: squared planar
distance over the first and third coordinates. -/
def specPlanarDistSqXZ (cur start : ℚ × ℚ × ℚ) : ℚ :=
  (cur.1 - start.1) ^ 2 + (cur.2.2 - start.2.2) ^ 2

/-- The raw yaw error of the go2_gait.py walking loop, lines 405 to 421:
target_yaw - current_yaw, with no angular wrapping (the forward branch is
the special case target_yaw = 0). -/
def go2RawYawError (target current : ℚ) : ℚ := target - current

/-- The yaw correction of the go2_gait.py walking loop:
max(-0.5, min(0.5, yaw_error * 0.5)). -/
def go2YawCorrection (target current : ℚ) : ℚ :=
  max (-(1 / 2)) (min (1 / 2) (go2RawYawError target current * (1 / 2)))

/-- Projection of RobotState and the RobotControllerBase state of
go2control_system.py onto the fields that the distance computation reads
or writes; the orientation field is updated independently and never read
by that computation. -/
structure RobotCState where
  position : ℚ × ℚ × ℚ
  velocity : ℚ
  is_moving : Bool
  distance_traveled : ℚ
  mode : MovementMode
  deriving DecidableEq

/-- Models StraightPathPlanner.calculate_next_position,
go2control_system.py lines 52 to 72: while moving, advance the position
by velocity * dt along the axis selected by the mode. -/
def calculate_next_position (s : RobotCState) (dt : ℚ) : ℚ × ℚ × ℚ :=
  if s.is_moving = false then s.position
  else
    match s.mode with
    | .rightward =>
        (s.position.1 + s.velocity * dt, s.position.2.1, s.position.2.2)
    | .forward =>
        (s.position.1, s.position.2.1, s.position.2.2 + s.velocity * dt)

/-- Models RobotControllerBase.update, go2control_system.py lines 163 to
183, with the sqrt oracle made explicit: while moving, the displacement
of the planner position from the current position is accumulated into
distance_traveled; when the accumulated distance reaches the planner path
length the source calls the method stop_movement, which does not exist on
the class, raising AttributeError, modelled as none. -/
def rcUpdate (sqrt' : ℚ → ℚ) (pathLen : ℚ) (s : RobotCState) (dt : ℚ) :
    Option RobotCState :=
  if s.is_moving then
    let np := calculate_next_position s dt
    let dx := np.1 - s.position.1
    let dz := np.2.2 - s.position.2.2
    let d' := s.distance_traveled + sqrt' (dx ^ 2 + dz ^ 2)
    if pathLen ≤ d' then none
    else some { s with position := np, distance_traveled := d' }
  else some s

/-- Models the UnitySimulationController receive loop,
go2control_system.py lines 227 to 241: each status datagram overwrites
position and distance_traveled verbatim with the values reported by the
transport. -/
def applyUnityStatus (s : RobotCState) (pos : ℚ × ℚ × ℚ) (dist : ℚ) :
    RobotCState :=
  { s with position := pos, distance_traveled := dist }

/-- A Walking-state snapshot at the start position, as after start(). -/
def c4State0 : RobotCState := ⟨(0, 0, 0), 0, true, 0, .forward⟩

/-- The state after Unity reports position (1,2,3) and distanceTraveled
7 while c4State0 is current. -/
def c4State1 : RobotCState := applyUnityStatus c4State0 (1, 2, 3) 7

/-- Python exception kinds relevant to the modelled loop. -/
inductive PyErr
  | typeError
  deriving DecidableEq

/-- Nominal control period of the go2_gait.py loop: time.sleep(0.02) at
line 440. -/
def go2TickPeriod : ℚ := 1 / 50

/-- Delay of the disconnected branch of the go2_gait.py loop:
time.sleep(1) at line 327. -/
def go2DisconnectDelay : ℚ := 1

/-- Models one iteration of the go2_gait.py main loop, lines 319 to 440,
with no pending keyboard events, returning the base-velocity commands
sent, the next value of is_walking and the sleep duration ending the
iteration.  The disconnected branch, lines 322 to 328, clears is_walking,
sends one zero-velocity command and sleeps one second before the next
poll.  When connected, a heartbeat zero-velocity command is sent first if
more than 0.5 s passed since the last command; the Walking branch then
raises TypeError at the two-argument call
path_controller.get_speed(distance_traveled, current_time) on line 388,
while the idle branch sends one zero-velocity command and sleeps for the
tick period. -/
def go2LoopIter (connected walking heartbeatDue : Bool) :
    Except PyErr (List Cmd × Bool × ℚ) :=
  if connected = false then
    Except.ok ([zeroVel], false, go2DisconnectDelay)
  else
    let hb : List Cmd := if heartbeatDue then [zeroVel] else []
    if walking then Except.error PyErr.typeError
    else Except.ok (hb ++ [zeroVel], false, go2TickPeriod)

/-- An idle CLI state used as a concrete witness input. -/
def pyIdleState : PyCLIState := ⟨1 / 2, .forward, 0, false⟩

/-- An idle unified-controller state used as a concrete witness input. -/
def uIdleState : UState := ⟨false, false, 1 / 2, 1 / 2, 0, .forward⟩

/-- Oracle instantiation for the concrete completing simulation tick: the
tick body applies no square root (the distance is an input of the body),
sin is not applied because gaze is disabled, and radians is applied only
to the angle 0, where it returns 0 like math.radians. -/
def c6Math : PyMath := ⟨fun _ => 15, fun _ => 0, fun _ => 0⟩

/-- PathController in mode 1-3_gradual with gaze disabled, as
constructed. -/
def c6Ctrl : PathCtrl := ⟨15, .oneThreeGradual, false, false⟩

/-- Claim C1: on every exit path of the control programs, a zero-velocity
command is the last command sent to the transport before the process may
exit.  For go2_gait.py: if the robot was never constructed no command is
ever sent, and otherwise the finally block makes the zero-velocity
command the last element of the trace for both exit causes.  For
pyCLI.py: the shutdown path ends the trace with the stop_movement
command, which carries speed 0 and the stop flag. -/
theorem claim_C1_shutdown_last_cmd_zero :
    (∀ (up : Bool) (r : RobotFlags) (loop : List Cmd) (c : ExitCause),
      go2MainTrace up r loop c = [] ∨
        (go2MainTrace up r loop c).getLast? = some zeroVel) ∧
    (∀ (loop : List PyCommand) (s : PyCLIState),
      (pyMainTrace loop s).getLast? = some (stop_movement s).2 ∧
        (stop_movement s).2.speed = 0 ∧ (stop_movement s).2.stop = true) := by
  constructor
  · intro up r loop c
    cases up with
    | false => exact Or.inl rfl
    | true =>
      refine Or.inr ?_
      cases c <;>
        exact List.getLast?_concat
          (loop ++ (emergency_stop r).map Prod.fst)
  · intro loop s
    exact ⟨List.getLast?_concat loop, rfl, rfl⟩

/-- Claim C2: whenever the emergency stop is entered, regardless of the
robot flags, it issues ten zero-velocity commands (at least five), at
least five of them within the first 100 ms, and the routine spans 100 ms
of sleeps in total. -/
theorem claim_C2_emergency_stop_burst :
    ∀ r : RobotFlags,
      ((emergency_stop r).map Prod.fst = List.replicate 10 zeroVel) ∧
      5 ≤ (emergency_stop r).length ∧
      (1 / 10 : ℚ) ≤ emergencyStopDuration ∧
      5 ≤ ((emergency_stop r).filter
            (fun e => decide (e.2 < (1 / 10 : ℚ)))).length := by
  intro r
  refine ⟨rfl, by simp [emergency_stop], by norm_num [emergencyStopDuration], ?_⟩
  have h : (emergency_stop r).filter (fun e => decide (e.2 < (1 / 10 : ℚ))) =
      emergency_stop r := by
    simp only [emergency_stop, List.map, List.filter, decide_eq_true_eq]
    norm_num
  rw [h]
  simp [emergency_stop]

/-- Claim C3 (code bug): the go2_gait walking loop computes its yaw
correction from the raw heading difference with no angular wrapping.  At
current_heading 3.0 and target_heading -3.0 the raw error is -6, whose
magnitude exceeds pi, so the claimed wrap of the error into (-pi, pi]
does not happen; the correction is the saturated -1/2, driving the
heading the long way around, while the shortest-way error -6 + 2*pi is
positive, so a wrapped controller would steer the other way. -/
theorem claim_C3_heading_raw_subtraction :
    go2YawCorrection (-3) 3 = -(1 / 2) ∧
    go2RawYawError (-3) 3 = -6 ∧
    Real.pi < |((go2RawYawError (-3) 3 : ℚ) : ℝ)| ∧
    (0 : ℝ) < ((go2RawYawError (-3) 3 : ℚ) : ℝ) + 2 * Real.pi := by
  have he : ((go2RawYawError (-3) 3 : ℚ) : ℝ) = -6 := by
    norm_num [go2RawYawError]
  refine ⟨?_, by norm_num [go2RawYawError], ?_, ?_⟩
  · norm_num [go2YawCorrection, go2RawYawError, min_def, max_def]
  · rw [he]
    have h6 : |(-6 : ℝ)| = 6 := by norm_num
    rw [h6]
    linarith [Real.pi_lt_d2]
  · rw [he]
    linarith [Real.pi_gt_d6]

/-- Claim C4 counterexample: in go2control_system, a Unity status
datagram sets distance_traveled to 7 while the planar displacement of the
reported position (1,2,3) from the start (0,0,0) is the square root of
10; the next Walking update of the controller keeps the value 7 (its
planner displacement is zero, so the sqrt oracle is applied only to 0,
where the constant-zero oracle agrees with math.sqrt), and 7 is not the
planar Euclidean distance from the start. -/
theorem claim_C4_cex :
    c4State1.is_moving = true ∧
    c4State1.distance_traveled = 7 ∧
    calculate_next_position c4State1 (1 / 100) = c4State1.position ∧
    isSqrtOf 0 ((fun _ => (0 : ℚ)) 0) ∧
    rcUpdate (fun _ => 0) 10 c4State1 (1 / 100) = some c4State1 ∧
    ¬ isSqrtOf (specPlanarDistSqXZ c4State1.position c4State0.position)
        c4State1.distance_traveled := by
  refine ⟨rfl, rfl, ?_, by norm_num [isSqrtOf], ?_, ?_⟩
  · norm_num [calculate_next_position, c4State1, c4State0, applyUnityStatus]
  · norm_num [rcUpdate, calculate_next_position, c4State1, c4State0,
      applyUnityStatus]
  · norm_num [isSqrtOf, specPlanarDistSqXZ, c4State1, c4State0,
      applyUnityStatus]

/-- Claim C4 amended, go2_gait side: the Walking-tick distance of
go2_gait.py is the square root of the squared planar displacement from
the episode start snapshot, vertical coordinate excluded, which is
exactly the planar Euclidean distance prescribed by the spec. -/
theorem claim_C4_distance_planar :
    ∀ (cur init : ℚ × ℚ × ℚ) (d : ℚ),
      isSqrtOf (planarDistSq cur init) d →
        0 ≤ d ∧ d * d = specPlanarDistSqXY cur init := by
  intro cur init d h
  exact ⟨h.1, h.2⟩

/-- Witness for claim C4: the concrete distance 5 from start (0,0,0) to
position (3,4,7). -/
theorem claim_C4_distance_witness :
    0 ≤ (5 : ℚ) ∧ (5 : ℚ) * 5 = specPlanarDistSqXY (3, 4, 7) (0, 0, 0) :=
  claim_C4_distance_planar (3, 4, 7) (0, 0, 0) 5
    (by norm_num [isSqrtOf, planarDistSq])

/-- Claim C5: for every policy, get_speed agrees with the policy table of
the spec at path length 15; on distances in [0,15] its value lies in
[0,3]; and the 1-3_abrupt policy returns 1, 1, 3, 3 at distances 0, 4,
8.1, 15. -/
theorem claim_C5_speed_table :
    (∀ (g w : Bool) (mode : SpeedMode) (d : ℚ),
      get_speed ⟨15, mode, g, w⟩ d = specSpeedTable 15 mode d) ∧
    (∀ (g w : Bool) (mode : SpeedMode) (d : ℚ), 0 ≤ d → d ≤ 15 →
      0 ≤ get_speed ⟨15, mode, g, w⟩ d ∧ get_speed ⟨15, mode, g, w⟩ d ≤ 3) ∧
    get_speed ⟨15, .oneThreeAbrupt, false, false⟩ 0 = 1 ∧
    get_speed ⟨15, .oneThreeAbrupt, false, false⟩ 4 = 1 ∧
    get_speed ⟨15, .oneThreeAbrupt, false, false⟩ (81 / 10) = 3 ∧
    get_speed ⟨15, .oneThreeAbrupt, false, false⟩ 15 = 3 := by
  refine ⟨?_, ?_, ?_, ?_, ?_, ?_⟩
  · intro g w mode d
    cases mode <;> simp [get_speed, specSpeedTable]
  · intro g w mode d h0 h15
    cases mode <;> simp only [get_speed] <;>
      first
        | (constructor <;> linarith)
        | (split_ifs <;> constructor <;> linarith)
  · norm_num [get_speed]
  · norm_num [get_speed]
  · norm_num [get_speed]
  · norm_num [get_speed]

/-- Witness for claim C5: the bound conjunct applied at distance 4 of the
1-3_abrupt policy. -/
theorem claim_C5_speed_witness :
    0 ≤ get_speed ⟨15, .oneThreeAbrupt, false, false⟩ 4 ∧
      get_speed ⟨15, .oneThreeAbrupt, false, false⟩ 4 ≤ 3 :=
  claim_C5_speed_table.2.1 false false SpeedMode.oneThreeAbrupt 4
    (by norm_num) (by norm_num)

/-- Claim C6 counterexample: a simulation Walking tick at distance 15 on
the 15-length path (15 is the planar distance from the start (0,0,0.4)
to (0,15,0.4)) sends exactly one command, the nonzero velocity (0,3,0),
and still flips is_walking to false: no zero-velocity command is issued
together with the path-complete transition on that tick. -/
theorem claim_C6_cex :
    simWalkBody c6Math c6Ctrl 15 0 =
      ([⟨(0, 3, 0), (0, 0, 0)⟩], false, c6Ctrl) ∧
    (⟨(0, 3, 0), (0, 0, 0)⟩ : Cmd) ≠ zeroVel ∧
    isSqrtOf (planarDistSq (0, 15, 2 / 5) (0, 0, 2 / 5)) 15 := by
  refine ⟨?_, by norm_num [zeroVel, Cmd.mk.injEq, Prod.ext_iff],
    by norm_num [isSqrtOf, planarDistSq]⟩
  norm_num [simWalkBody, get_speed, get_gaze_angle, c6Math, c6Ctrl]

/-- Claim C6 amended: in go2_gait.py the completion check issues one
zero-velocity command and only afterwards clears is_walking, on the very
tick where distance_traveled reaches path_length; in the simulation the
completing tick itself sends no zero-velocity command (claim_C6_cex), and
the zero command only comes from the idle branch of the following
tick. -/
theorem claim_C6_completion_sync :
    (∀ (d L : ℚ) (w : Bool), L ≤ d →
      go2CompletionStep d L w = ([zeroVel], false)) ∧
    simIdleBody = [zeroVel] := by
  refine ⟨?_, rfl⟩
  intro d L w h
  simp [go2CompletionStep, h]

/-- Witness for claim C6: the completion step at distance 15 on the
15-length path. -/
theorem claim_C6_completion_witness :
    (15 : ℚ) ≤ 15 ∧ go2CompletionStep 15 15 true = ([zeroVel], false) :=
  ⟨le_refl 15, claim_C6_completion_sync.1 15 15 true (le_refl 15)⟩

/-- Claim C7 counterexample: after a disconnect is detected, the loop
sleeps one full second before polling connectivity again, not the 20 ms
tick period, so connectivity is not re-polled at the tick rate. -/
theorem claim_C7_cex :
    go2LoopIter false true false =
      Except.ok ([zeroVel], false, go2DisconnectDelay) ∧
    go2DisconnectDelay = 1 ∧ go2TickPeriod = 1 / 50 ∧
    go2DisconnectDelay ≠ go2TickPeriod := by
  refine ⟨rfl, rfl, rfl, ?_⟩
  norm_num [go2DisconnectDelay, go2TickPeriod]

/-- Claim C7 amended: if connectivity is false the same iteration sends a
zero-velocity command, clears is_walking and sleeps one second before the
next poll (not the tick period); once connectivity is true again the loop
resumes its normal idle ticking at the tick period with no operator
action. -/
theorem claim_C7_watchdog :
    (∀ w hb : Bool, go2LoopIter false w hb =
      Except.ok ([zeroVel], false, go2DisconnectDelay)) ∧
    go2LoopIter true false false =
      Except.ok ([zeroVel], false, go2TickPeriod) :=
  ⟨fun _ _ => rfl, rfl⟩

/-- Claim C8: calling stop when already idle leaves the controller state
unchanged and still publishes a zero-velocity command, in both the CLI
controller and the unified controller. -/
theorem claim_C8_stop_idempotent :
    (∀ s : PyCLIState, s.is_moving = false →
      stop_movement s = (s, ⟨0, s.mode, s.gaze_angle, false, true, false⟩)) ∧
    (∀ s : UState, s.is_moving = false → s.is_running = false →
      uStop s = (s, uSend s (0, 0, 0) 0) ∧
        (uSend s (0, 0, 0) 0).velocity = (0, 0, 0) ∧
        (uSend s (0, 0, 0) 0).yawRate = 0) := by
  constructor
  · intro s h
    cases s
    simp only at h
    subst h
    rfl
  · intro s h1 h2
    cases s
    simp only at h1 h2
    subst h1
    subst h2
    exact ⟨rfl, rfl, rfl⟩

/-- Witness for claim C8: stop on concrete idle states. -/
theorem claim_C8_stop_witness :
    stop_movement pyIdleState =
      (pyIdleState,
        ⟨0, pyIdleState.mode, pyIdleState.gaze_angle, false, true, false⟩) ∧
    uStop uIdleState = (uIdleState, uSend uIdleState (0, 0, 0) 0) :=
  ⟨claim_C8_stop_idempotent.1 pyIdleState rfl,
   (claim_C8_stop_idempotent.2 uIdleState rfl rfl).1⟩

/-- Claim C9 (code bug): PathController.get_speed accepts exactly one
positional argument besides self, so the two-argument call
get_speed(distance_traveled, current_time) made on line 388 by every
Walking tick of go2_gait.py is rejected with TypeError, and the
connected Walking iteration of the loop raises instead of completing. -/
theorem claim_C9_get_speed_arity :
    (∀ (pc : PathCtrl) (d t : ℚ), applyGetSpeed pc [d, t] = none) ∧
    (∀ hb : Bool, go2LoopIter true true hb = Except.error PyErr.typeError) :=
  ⟨fun _ _ _ => rfl, fun _ => rfl⟩

/-- Claim C10: set_speed stores max(0.1, min(2.0, v)) in both the unified
controller and the CLI controller, so the stored operator speed is always
within [0.1, 2.0]. -/
theorem claim_C10_set_speed_clamp :
    ∀ v : ℚ,
      (∀ s : UState,
        (uSetSpeed s v).speed = max (1 / 10) (min 2 v) ∧
        (uSetSpeed s v).target_speed = max (1 / 10) (min 2 v) ∧
        (1 / 10 : ℚ) ≤ (uSetSpeed s v).speed ∧ (uSetSpeed s v).speed ≤ 2) ∧
      (∀ s : PyCLIState,
        (pySetSpeed s v).1.speed = max (1 / 10) (min 2 v) ∧
        (1 / 10 : ℚ) ≤ (pySetSpeed s v).1.speed ∧
        (pySetSpeed s v).1.speed ≤ 2) := by
  intro v
  have h1 : (1 / 10 : ℚ) ≤ max (1 / 10) (min 2 v) := le_max_left _ _
  have h2 : max (1 / 10 : ℚ) (min 2 v) ≤ 2 :=
    max_le (by norm_num) (min_le_left _ _)
  exact ⟨fun s => ⟨rfl, rfl, h1, h2⟩, fun s => ⟨rfl, h1, h2⟩⟩
